import Mathlib

/-!
Shallow embedding of the call-to-agent dispatcher
(domain entities, assignment strategy/service, orchestrator paths),
translated from the Python sources under `src/`.

Conventions:
* `datetime.utcnow()` is modelled by an explicit `now : ℚ` parameter;
  timestamps are rationals.
* Methods that `raise ValueError` are modelled as `Except Err _`; a
  `.error` result corresponds to the exception, with the receiver left
  in the state it had when the exception was raised.
* `float('inf')` idle time is modelled by `(⊤ : WithTop ℚ)`.
-/

abbrev Err := String

/-! ## Entities: `src/domain/entities/agent.py` -/

inductive AgentStatus
  | AVAILABLE
  | BUSY
  | PAUSED
  | OFFLINE
deriving DecidableEq

structure Agent where
  id : String
  name : String := ""
  agent_type : String := ""
  status : AgentStatus := AgentStatus.OFFLINE
  last_call_end_time : Option ℚ := none
  current_call_id : Option String := none
  updated_at : ℚ := 0
deriving DecidableEq

def Agent.is_available (a : Agent) : Bool :=
  a.status = AgentStatus.AVAILABLE

def Agent.assign_call (a : Agent) (call_id : String) (now : ℚ) : Except Err Agent :=
  if ¬ a.is_available then
    .error ("Agent " ++ a.id ++ " is not available")
  else
    .ok { a with
      status := AgentStatus.BUSY
      current_call_id := some call_id
      updated_at := now }

def Agent.complete_call (a : Agent) (now : ℚ) : Except Err Agent :=
  if a.status ≠ AgentStatus.BUSY then
    .error ("Agent " ++ a.id ++ " is not currently busy")
  else
    .ok { a with
      status := AgentStatus.AVAILABLE
      last_call_end_time := some now
      current_call_id := none
      updated_at := now }

def Agent.set_available (a : Agent) (now : ℚ) : Agent :=
  { a with status := AgentStatus.AVAILABLE, updated_at := now }

def Agent.set_paused (a : Agent) (now : ℚ) : Agent :=
  { a with status := AgentStatus.PAUSED, updated_at := now }

def Agent.get_idle_time_seconds (a : Agent) (now : ℚ) : WithTop ℚ :=
  match a.last_call_end_time with
  | none => ⊤
  | some t => ((now - t : ℚ) : WithTop ℚ)

/-- The data-model invariant stated in the spec:
`(current-call-id ≠ null) ⇔ (status = BUSY)`. -/
def Agent.inv (a : Agent) : Prop :=
  a.current_call_id ≠ none ↔ a.status = AgentStatus.BUSY

instance (a : Agent) : Decidable a.inv := by
  unfold Agent.inv; infer_instance

/-! ## Entities: `src/domain/entities/call.py` -/

inductive CallStatus
  | PENDING
  | ASSIGNED
  | IN_PROGRESS
  | COMPLETED
  | ABANDONED
  | FAILED
deriving DecidableEq

inductive QualificationResult
  | OK
  | KO
  | PENDING
deriving DecidableEq

structure Call where
  id : String
  phone_number : String := ""
  call_type : String := ""
  status : CallStatus := CallStatus.PENDING
  assigned_agent_id : Option String := none
  qualification_result : QualificationResult := QualificationResult.PENDING
  created_at : ℚ := 0
  assigned_at : Option ℚ := none
  started_at : Option ℚ := none
  completed_at : Option ℚ := none
  duration_seconds : Option ℚ := none
deriving DecidableEq

def Call.assign_to_agent (c : Call) (agent_id : String) (now : ℚ) : Except Err Call :=
  if c.status ≠ CallStatus.PENDING then
    .error ("Call " ++ c.id ++ " cannot be assigned.")
  else
    .ok { c with
      status := CallStatus.ASSIGNED
      assigned_agent_id := some agent_id
      assigned_at := some now }

def Call.abandon_call (c : Call) (now : ℚ) : Call :=
  { c with status := CallStatus.ABANDONED, completed_at := some now }

/-! ## Entities: `src/domain/entities/assignment.py` -/

inductive AssignmentStatus
  | PENDING
  | ACTIVE
  | COMPLETED
  | FAILED
deriving DecidableEq

structure Assignment where
  id : String := ""
  call_id : String := ""
  agent_id : String := ""
  status : AssignmentStatus := AssignmentStatus.PENDING
  assignment_time_ms : Option ℚ := none
  expected_duration_seconds : Option ℚ := none
  actual_duration_seconds : Option ℚ := none
  activated_at : Option ℚ := none
  completed_at : Option ℚ := none
deriving DecidableEq

def Assignment.activate (a : Assignment) (assignment_time_ms expected_duration_seconds now : ℚ) :
    Except Err Assignment :=
  if a.status ≠ AssignmentStatus.PENDING then
    .error ("Assignment " ++ a.id ++ " cannot be activated.")
  else
    .ok { a with
      status := AssignmentStatus.ACTIVE
      assignment_time_ms := some assignment_time_ms
      expected_duration_seconds := some expected_duration_seconds
      activated_at := some now }

/-- `Assignment.fail`: unconditionally marks the assignment FAILED.
The `reason` argument is accepted and ignored, as in the source. -/
def Assignment.fail (a : Assignment) (reason : String) (now : ℚ) : Assignment :=
  { a with status := AssignmentStatus.FAILED, completed_at := some now }

/-! ## Strategy: `src/domain/services/assignment_service.py` -/

/-- The descending-idle-time ordering used by
`sorted(..., key=get_idle_time_seconds, reverse=True)`; Python's sort is
stable, which `List.insertionSort` matches. -/
def idleGE (now : ℚ) (a b : Agent) : Prop :=
  b.get_idle_time_seconds now ≤ a.get_idle_time_seconds now

instance (now : ℚ) : DecidableRel (idleGE now) := by
  unfold idleGE; infer_instance

def LongestIdleTimeStrategy.select_agent (available_agents : List Agent) (now : ℚ) :
    Option Agent :=
  let truly_available := available_agents.filter (fun a => a.is_available)
  let sorted_agents := truly_available.insertionSort (idleGE now)
  sorted_agents.head?

instance (now : ℚ) : IsTotal Agent (idleGE now) :=
  ⟨fun a b => (le_total (b.get_idle_time_seconds now) (a.get_idle_time_seconds now))⟩

instance (now : ℚ) : IsTrans Agent (idleGE now) :=
  ⟨fun _ _ _ hab hbc => le_trans hbc hab⟩

theorem Agent.is_available_iff (a : Agent) :
    a.is_available = true ↔ a.status = AgentStatus.AVAILABLE := by
  simp [Agent.is_available]

/-- Characterisation of a successful selection: the returned agent is a
truly-available member of the input, maximal in idle time among the
truly-available ones. -/
theorem select_agent_eq_some (l : List Agent) (now : ℚ) (sel : Agent)
    (h : LongestIdleTimeStrategy.select_agent l now = some sel) :
    sel ∈ l ∧ sel.is_available = true ∧
      ∀ a ∈ l, a.is_available = true →
        a.get_idle_time_seconds now ≤ sel.get_idle_time_seconds now := by
  have h' : ((l.filter (fun a => a.is_available)).insertionSort (idleGE now)).head?
      = some sel := h
  clear h
  set sorted := (l.filter (fun a => a.is_available)).insertionSort (idleGE now) with hsorted
  cases hs : sorted with
  | nil => rw [hs] at h'; simp at h'
  | cons x xs =>
    rw [hs] at h'
    simp only [List.head?] at h'
    cases h'
    have hmem : sel ∈ sorted := by rw [hs]; exact List.mem_cons_self _ _
    have hmemf : sel ∈ l.filter (fun a => a.is_available) := by
      rw [hsorted] at hmem
      exact (List.mem_insertionSort _).1 hmem
    have hmeml := List.mem_of_mem_filter hmemf
    have havail : sel.is_available = true := by
      have := List.of_mem_filter hmemf
      simpa using this
    refine ⟨hmeml, havail, ?_⟩
    intro a ha haavail
    have haf : a ∈ l.filter (fun a => a.is_available) :=
      List.mem_filter.2 ⟨ha, by simpa using haavail⟩
    have has : a ∈ sorted := by
      rw [hsorted]
      exact (List.mem_insertionSort _).2 haf
    rw [hs] at has
    rcases List.mem_cons.1 has with rfl | hat
    · exact le_refl _
    · have hsrt : List.Sorted (idleGE now) sorted :=
        List.sorted_insertionSort (idleGE now) _
      rw [hs] at hsrt
      exact List.rel_of_sorted_cons hsrt a hat

/-- If some input agent is truly available, selection succeeds. -/
theorem select_agent_isSome (l : List Agent) (now : ℚ)
    (h : ∃ a ∈ l, a.is_available = true) :
    ∃ sel, LongestIdleTimeStrategy.select_agent l now = some sel := by
  show ∃ sel, ((l.filter (fun a => a.is_available)).insertionSort (idleGE now)).head?
    = some sel
  obtain ⟨a, ha, haavail⟩ := h
  have haf : a ∈ l.filter (fun a => a.is_available) :=
    List.mem_filter.2 ⟨ha, by simpa using haavail⟩
  have has : a ∈ (l.filter (fun a => a.is_available)).insertionSort (idleGE now) :=
    (List.mem_insertionSort _).2 haf
  cases hs : (l.filter (fun a => a.is_available)).insertionSort (idleGE now) with
  | nil => rw [hs] at has; simp at has
  | cons x xs => exact ⟨x, rfl⟩

/-- C1: For every non-empty list of agents passed to
`LongestIdleTimeStrategy.select_agent` in which at least one agent has status
AVAILABLE, the agent returned is an AVAILABLE agent whose idle time (seconds
since `last_call_end_time`, infinite when `last_call_end_time` is null) is
maximal among the AVAILABLE agents; in particular a never-served agent (null
`last_call_end_time`) is selected over every agent with a finite idle time. -/
theorem C1_longest_idle_selection (agents : List Agent) (now : ℚ)
    (h : ∃ a ∈ agents, a.status = AgentStatus.AVAILABLE) :
    ∃ sel, LongestIdleTimeStrategy.select_agent agents now = some sel ∧
      sel ∈ agents ∧ sel.status = AgentStatus.AVAILABLE ∧
      (∀ a ∈ agents, a.status = AgentStatus.AVAILABLE →
        a.get_idle_time_seconds now ≤ sel.get_idle_time_seconds now) ∧
      ((∃ a ∈ agents, a.status = AgentStatus.AVAILABLE ∧ a.last_call_end_time = none) →
        sel.last_call_end_time = none) := by
  obtain ⟨a, ha, hstat⟩ := h
  obtain ⟨sel, hsel⟩ := select_agent_isSome agents now
    ⟨a, ha, (Agent.is_available_iff a).2 hstat⟩
  obtain ⟨hmem, havail, hmax⟩ := select_agent_eq_some agents now sel hsel
  refine ⟨sel, hsel, hmem, (Agent.is_available_iff sel).1 havail, ?_, ?_⟩
  · intro b hb hbstat
    exact hmax b hb ((Agent.is_available_iff b).2 hbstat)
  · rintro ⟨b, hb, hbstat, hbnone⟩
    have hle := hmax b hb ((Agent.is_available_iff b).2 hbstat)
    have hbtop : b.get_idle_time_seconds now = ⊤ := by
      simp [Agent.get_idle_time_seconds, hbnone]
    rw [hbtop] at hle
    have hseltop : sel.get_idle_time_seconds now = ⊤ := top_le_iff.1 hle
    cases hlast : sel.last_call_end_time with
    | none => rfl
    | some t =>
      rw [Agent.get_idle_time_seconds, hlast] at hseltop
      exact absurd hseltop (WithTop.coe_ne_top)

/-- Witness for C1 at a concrete input: one finite-idle agent and one
never-served agent, both AVAILABLE; the never-served one is returned. -/
theorem C1_witness :
    ∃ sel,
      LongestIdleTimeStrategy.select_agent
        [{ id := "a", status := AgentStatus.AVAILABLE, last_call_end_time := some 90 },
         { id := "b", status := AgentStatus.AVAILABLE, last_call_end_time := none }] 100
        = some sel ∧
      sel ∈ [({ id := "a", status := AgentStatus.AVAILABLE, last_call_end_time := some 90 } : Agent),
             { id := "b", status := AgentStatus.AVAILABLE, last_call_end_time := none }] ∧
      sel.status = AgentStatus.AVAILABLE ∧
      (∀ a ∈ [({ id := "a", status := AgentStatus.AVAILABLE, last_call_end_time := some 90 } : Agent),
              { id := "b", status := AgentStatus.AVAILABLE, last_call_end_time := none }],
        a.status = AgentStatus.AVAILABLE →
          a.get_idle_time_seconds 100 ≤ sel.get_idle_time_seconds 100) ∧
      ((∃ a ∈ [({ id := "a", status := AgentStatus.AVAILABLE, last_call_end_time := some 90 } : Agent),
               { id := "b", status := AgentStatus.AVAILABLE, last_call_end_time := none }],
          a.status = AgentStatus.AVAILABLE ∧ a.last_call_end_time = none) →
        sel.last_call_end_time = none) :=
  C1_longest_idle_selection _ 100
    ⟨{ id := "a", status := AgentStatus.AVAILABLE, last_call_end_time := some 90 },
     by decide, by decide⟩

/-! ## Service: `AssignmentService.assign_call`
(`src/domain/services/assignment_service.py`)

The source mutates the `call` and the selected agent object in place; the
embedding returns the final call state alongside the optional
`(assignment, mutated agent)` pair.  The `interfere` parameter models a
concurrent mutation of the selected agent object in the window between
strategy selection and the bind-time `Agent.assign_call` check — `id`
recovers the single-threaded behaviour.  `aid` is the fresh assignment id
(`uuid4` in the source) and `t_ms` the externally measured latency. -/

def AssignmentService.assignCall (call : Call) (available_agents : List Agent)
    (interfere : Agent → Agent) (aid : String) (now t_ms : ℚ) :
    Option (Assignment × Agent) × Call :=
  if call.status ≠ CallStatus.PENDING then
    (none, call)
  else
    match LongestIdleTimeStrategy.select_agent available_agents now with
    | none => (none, call)
    | some selected =>
      let assignment : Assignment := { id := aid, call_id := call.id, agent_id := selected.id }
      match call.assign_to_agent selected.id now with
      | .error _ => (none, call)
      | .ok call' =>
        match (interfere selected).assign_call call.id now with
        | .error _ => (none, call')
        | .ok agent' =>
          match assignment.activate t_ms 0 now with
          | .error _ => (none, call')
          | .ok asg' => (some (asg', agent'), call')

/-- C2: For every PENDING call and every agent list from which an agent is
successfully selected, `AssignmentService.assign_call` (run without
interference) returns a pair such that the call is ASSIGNED to the selected
agent with `assigned_at` set, the agent is BUSY holding the call, and the
Assignment is ACTIVE with matching ids and the measured latency. -/
theorem C2_bind_postconditions (call : Call) (agents : List Agent) (sel : Agent)
    (aid : String) (now t_ms : ℚ)
    (hpending : call.status = CallStatus.PENDING)
    (hsel : LongestIdleTimeStrategy.select_agent agents now = some sel) :
    ∃ asg ag call',
      AssignmentService.assignCall call agents id aid now t_ms = (some (asg, ag), call') ∧
      call'.status = CallStatus.ASSIGNED ∧
      call'.assigned_agent_id = some sel.id ∧
      call'.assigned_at = some now ∧
      ag.id = sel.id ∧
      ag.status = AgentStatus.BUSY ∧
      ag.current_call_id = some call.id ∧
      asg.status = AssignmentStatus.ACTIVE ∧
      asg.call_id = call.id ∧
      asg.agent_id = sel.id ∧
      asg.assignment_time_ms = some t_ms := by
  have havail : sel.is_available = true :=
    (select_agent_eq_some agents now sel hsel).2.1
  refine ⟨{ id := aid, call_id := call.id, agent_id := sel.id,
            status := AssignmentStatus.ACTIVE, assignment_time_ms := some t_ms,
            expected_duration_seconds := some 0, activated_at := some now },
          { sel with
            status := AgentStatus.BUSY
            current_call_id := some call.id
            updated_at := now },
          { call with
            status := CallStatus.ASSIGNED
            assigned_agent_id := some sel.id
            assigned_at := some now }, ?_, rfl, rfl, rfl, rfl, rfl, rfl, rfl, rfl, rfl, rfl⟩
  have h1 : call.assign_to_agent sel.id now =
      .ok { call with
        status := CallStatus.ASSIGNED
        assigned_agent_id := some sel.id
        assigned_at := some now } := by
    rw [Call.assign_to_agent, if_neg (by simp [hpending])]
  have h2 : sel.assign_call call.id now =
      .ok { sel with
        status := AgentStatus.BUSY
        current_call_id := some call.id
        updated_at := now } := by
    rw [Agent.assign_call, if_neg (by simp [havail])]
  have h3 : Assignment.activate { id := aid, call_id := call.id, agent_id := sel.id } t_ms 0 now =
      .ok { id := aid, call_id := call.id, agent_id := sel.id,
            status := AssignmentStatus.ACTIVE, assignment_time_ms := some t_ms,
            expected_duration_seconds := some 0, activated_at := some now } := by
    rw [Assignment.activate, if_neg (by simp)]
  simp only [AssignmentService.assignCall, hpending, ne_eq, not_true_eq_false,
    not_false_eq_true, reduceIte, hsel, h1, h2, h3, id_eq]

/-- Witness for C2 at a concrete input. -/
theorem C2_witness :
    ∃ asg ag call',
      AssignmentService.assignCall { id := "c1" }
        [{ id := "a1", status := AgentStatus.AVAILABLE }] id "x1" 7 3
        = (some (asg, ag), call') ∧
      call'.status = CallStatus.ASSIGNED ∧
      call'.assigned_agent_id = some (Agent.id { id := "a1", status := AgentStatus.AVAILABLE }) ∧
      call'.assigned_at = some 7 ∧
      ag.id = Agent.id { id := "a1", status := AgentStatus.AVAILABLE } ∧
      ag.status = AgentStatus.BUSY ∧
      ag.current_call_id = some (Call.id { id := "c1" }) ∧
      asg.status = AssignmentStatus.ACTIVE ∧
      asg.call_id = Call.id { id := "c1" } ∧
      asg.agent_id = Agent.id { id := "a1", status := AgentStatus.AVAILABLE } ∧
      asg.assignment_time_ms = some 3 :=
  C2_bind_postconditions { id := "c1" } [{ id := "a1", status := AgentStatus.AVAILABLE }]
    { id := "a1", status := AgentStatus.AVAILABLE } "x1" 7 3 rfl (by decide)

/-- C3 (amended): when the selected agent's object is no longer AVAILABLE at
bind time, `AssignmentService.assign_call` returns failure (`None, None`)
without attempting any other candidate — even if other candidates are still
AVAILABLE the attempt fails. -/
theorem C3_no_retry_on_binding_race (call : Call) (agents : List Agent) (sel : Agent)
    (interfere : Agent → Agent) (aid : String) (now t_ms : ℚ)
    (hpending : call.status = CallStatus.PENDING)
    (hsel : LongestIdleTimeStrategy.select_agent agents now = some sel)
    (hrace : (interfere sel).status ≠ AgentStatus.AVAILABLE) :
    (AssignmentService.assignCall call agents interfere aid now t_ms).1 = none := by
  have h1 : call.assign_to_agent sel.id now =
      .ok { call with
        status := CallStatus.ASSIGNED
        assigned_agent_id := some sel.id
        assigned_at := some now } := by
    rw [Call.assign_to_agent, if_neg (by simp [hpending])]
  have h2 : (interfere sel).assign_call call.id now =
      .error ("Agent " ++ (interfere sel).id ++ " is not available") := by
    rw [Agent.assign_call, if_pos (by simp [Agent.is_available, hrace])]
  simp only [AssignmentService.assignCall, hpending, ne_eq, not_true_eq_false,
    not_false_eq_true, reduceIte, hsel, h1, h2]

/-- Counterexample to C3 as stated: two AVAILABLE candidates, the
first-ranked (never-served) one flips to PAUSED between selection and bind;
the second candidate is still AVAILABLE (untouched by the interference), yet
the whole assignment attempt fails. -/
theorem C3_counterexample :
    (Agent.status ((fun a => if a.id = "a1" then { a with status := AgentStatus.PAUSED } else a)
        { id := "a2", status := AgentStatus.AVAILABLE, last_call_end_time := some 90 })
      = AgentStatus.AVAILABLE) ∧
    (AssignmentService.assignCall { id := "c1" }
      [{ id := "a1", status := AgentStatus.AVAILABLE, last_call_end_time := none },
       { id := "a2", status := AgentStatus.AVAILABLE, last_call_end_time := some 90 }]
      (fun a => if a.id = "a1" then { a with status := AgentStatus.PAUSED } else a)
      "x1" 100 3).1 = none := by
  constructor
  · decide
  · decide

/-- Witness for the amended C3 theorem at a concrete input. -/
theorem C3_witness :
    (AssignmentService.assignCall { id := "c9" }
      [{ id := "b1", status := AgentStatus.AVAILABLE, last_call_end_time := none },
       { id := "b2", status := AgentStatus.AVAILABLE, last_call_end_time := some 50 }]
      (fun a => if a.id = "b1" then { a with status := AgentStatus.OFFLINE } else a)
      "y1" 60 2).1 = none :=
  C3_no_retry_on_binding_race { id := "c9" }
    [{ id := "b1", status := AgentStatus.AVAILABLE, last_call_end_time := none },
     { id := "b2", status := AgentStatus.AVAILABLE, last_call_end_time := some 50 }]
    { id := "b1", status := AgentStatus.AVAILABLE, last_call_end_time := none }
    (fun a => if a.id = "b1" then { a with status := AgentStatus.OFFLINE } else a)
    "y1" 60 2 rfl (by decide) (by decide)

/-- Counterexample to C4 as stated: a BUSY agent holding a call satisfies
the invariant, but `set_available` leaves `current_call_id` set while
flipping the status to AVAILABLE, breaking it.  (`set_paused` breaks it the
same way.) -/
theorem C4_counterexample :
    Agent.inv { id := "b", status := AgentStatus.BUSY, current_call_id := some "c" } ∧
    ¬ Agent.inv (Agent.set_available
      { id := "b", status := AgentStatus.BUSY, current_call_id := some "c" } 5) ∧
    ¬ Agent.inv (Agent.set_paused
      { id := "b", status := AgentStatus.BUSY, current_call_id := some "c" } 5) := by
  refine ⟨?_, ?_, ?_⟩ <;> decide

/-- C4 (amended): `assign_call` and `complete_call` preserve the invariant
`(current_call_id ≠ null) ⇔ (status = BUSY)` on every outcome (an exception
leaves the agent unchanged), while `set_available` and `set_paused` preserve
it only when the agent is not BUSY; applied to a BUSY agent they break it. -/
theorem C4_invariant_amended (a : Agent) (cid : String) (now : ℚ) (h : a.inv) :
    (∀ a', a.assign_call cid now = .ok a' → a'.inv) ∧
    (∀ a', a.complete_call now = .ok a' → a'.inv) ∧
    (a.status ≠ AgentStatus.BUSY →
      (a.set_available now).inv ∧ (a.set_paused now).inv) := by
  refine ⟨?_, ?_, ?_⟩
  · intro a' ha'
    rw [Agent.assign_call] at ha'
    split at ha'
    · cases ha'
    · cases ha'
      simp [Agent.inv]
  · intro a' ha'
    rw [Agent.complete_call] at ha'
    split at ha'
    · cases ha'
    · cases ha'
      simp [Agent.inv]
  · intro hnb
    have hnone : a.current_call_id = none := by
      by_contra hne
      exact hnb (h.1 hne)
    constructor
    · simp [Agent.inv, Agent.set_available, hnone]
    · simp [Agent.inv, Agent.set_paused, hnone]

/-- Witness for the amended C4 theorem at a concrete input: a PAUSED agent
with no call satisfies the invariant and all three conclusions hold. -/
theorem C4_witness :
    (∀ a', Agent.assign_call { id := "w", status := AgentStatus.PAUSED } "c" 1 = .ok a' →
      a'.inv) ∧
    (∀ a', Agent.complete_call { id := "w", status := AgentStatus.PAUSED } 1 = .ok a' →
      a'.inv) ∧
    (Agent.status { id := "w", status := AgentStatus.PAUSED } ≠ AgentStatus.BUSY →
      (Agent.set_available { id := "w", status := AgentStatus.PAUSED } 1).inv ∧
      (Agent.set_paused { id := "w", status := AgentStatus.PAUSED } 1).inv) :=
  C4_invariant_amended { id := "w", status := AgentStatus.PAUSED } "c" 1 (by decide)

/-! ## Service: `src/domain/services/qualification_service.py`

The conversion matrix `Dict[str, Dict[str, float]]` is modelled as an
association list; `np.random.default_rng().binomial(n=1, p)` is modelled by
a uniform sample `u ∈ [0, 1)` supplied as a parameter, yielding `1` with
probability `p` exactly when `u < p`. -/

def QualificationService.get_conversion_probability
    (conversion_matrix : List (String × List (String × ℚ)))
    (agent_type call_type : String) : ℚ :=
  match conversion_matrix.lookup agent_type with
  | none => 0
  | some row =>
    match row.lookup call_type with
    | none => 0
    | some p => p

/-- One Bernoulli draw of `binomial(n=1, p)` from a uniform sample `u`. -/
def QualificationService.binomial1 (u p : ℚ) : ℕ :=
  if u < p then 1 else 0

def QualificationService.qualify_call
    (conversion_matrix : List (String × List (String × ℚ)))
    (agent_type call_type : String) (u : ℚ) : QualificationResult :=
  let probability :=
    QualificationService.get_conversion_probability conversion_matrix agent_type call_type
  if QualificationService.binomial1 u probability = 1 then QualificationResult.OK
  else QualificationResult.KO

/-- C8: for an `(agent_type, call_type)` pair absent from the conversion
matrix (unknown agent type, or known agent type but unknown call type), the
probability is 0 and qualification is deterministically KO for every
non-negative uniform sample; for a present pair the Bernoulli parameter used
is exactly the matrix entry. -/
theorem C8_conversion_matrix (conversion_matrix : List (String × List (String × ℚ)))
    (agent_type call_type : String) (u : ℚ) :
    (conversion_matrix.lookup agent_type = none →
      QualificationService.get_conversion_probability conversion_matrix agent_type call_type
        = 0 ∧
      (0 ≤ u →
        QualificationService.qualify_call conversion_matrix agent_type call_type u
          = QualificationResult.KO)) ∧
    (∀ row, conversion_matrix.lookup agent_type = some row → row.lookup call_type = none →
      QualificationService.get_conversion_probability conversion_matrix agent_type call_type
        = 0 ∧
      (0 ≤ u →
        QualificationService.qualify_call conversion_matrix agent_type call_type u
          = QualificationResult.KO)) ∧
    (∀ row p, conversion_matrix.lookup agent_type = some row → row.lookup call_type = some p →
      QualificationService.get_conversion_probability conversion_matrix agent_type call_type
        = p ∧
      QualificationService.qualify_call conversion_matrix agent_type call_type u
        = (if u < p then QualificationResult.OK else QualificationResult.KO)) := by
  refine ⟨?_, ?_, ?_⟩
  · intro hnone
    have hp : QualificationService.get_conversion_probability conversion_matrix
        agent_type call_type = 0 := by
      simp only [QualificationService.get_conversion_probability, hnone]
    refine ⟨hp, fun hu => ?_⟩
    simp only [QualificationService.qualify_call, hp, QualificationService.binomial1,
      if_neg (not_lt.2 hu)]
    simp
  · intro row hrow hnone
    have hp : QualificationService.get_conversion_probability conversion_matrix
        agent_type call_type = 0 := by
      simp only [QualificationService.get_conversion_probability, hrow, hnone]
    refine ⟨hp, fun hu => ?_⟩
    simp only [QualificationService.qualify_call, hp, QualificationService.binomial1,
      if_neg (not_lt.2 hu)]
    simp
  · intro row p hrow hp
    have hq : QualificationService.get_conversion_probability conversion_matrix
        agent_type call_type = p := by
      simp only [QualificationService.get_conversion_probability, hrow, hp]
    refine ⟨hq, ?_⟩
    simp only [QualificationService.qualify_call, hq, QualificationService.binomial1]
    by_cases hcmp : u < p
    · simp [hcmp]
    · simp [hcmp]

/-- Witness for C8 at a concrete matrix: unknown agent type gives 0 / KO,
unknown call type gives 0 / KO, and a present pair uses exactly its entry. -/
theorem C8_witness :
    (QualificationService.get_conversion_probability [("a1", [("l1", 3/10)])] "zz" "l1" = 0 ∧
      QualificationService.qualify_call [("a1", [("l1", 3/10)])] "zz" "l1" (1/2)
        = QualificationResult.KO) ∧
    (QualificationService.get_conversion_probability [("a1", [("l1", 3/10)])] "a1" "zz" = 0 ∧
      QualificationService.qualify_call [("a1", [("l1", 3/10)])] "a1" "zz" (1/2)
        = QualificationResult.KO) ∧
    (QualificationService.get_conversion_probability [("a1", [("l1", 3/10)])] "a1" "l1"
        = 3/10 ∧
      QualificationService.qualify_call [("a1", [("l1", 3/10)])] "a1" "l1" (1/2)
        = (if (1/2 : ℚ) < 3/10 then QualificationResult.OK else QualificationResult.KO)) := by
  obtain ⟨hu, hk, hm⟩ := C8_conversion_matrix [("a1", [("l1", 3/10)])] "zz" "l1" (1/2)
  obtain ⟨hu2, hk2, hm2⟩ := C8_conversion_matrix [("a1", [("l1", 3/10)])] "a1" "zz" (1/2)
  obtain ⟨hu3, hk3, hm3⟩ := C8_conversion_matrix [("a1", [("l1", 3/10)])] "a1" "l1" (1/2)
  have h1 := hu rfl
  have h2 := hk2 [("l1", 3/10)] rfl rfl
  have h3 := hm3 [("l1", 3/10)] (3/10) rfl rfl
  exact ⟨⟨h1.1, h1.2 (by norm_num)⟩, ⟨h2.1, h2.2 (by norm_num)⟩, h3⟩

/-- C9: `Assignment.fail` is total and unguarded: for an assignment in any
status — PENDING, ACTIVE, COMPLETED, or FAILED — it never raises, sets the
status to FAILED, and overwrites `completed_at`; in particular an
already-COMPLETED assignment is moved to FAILED. -/
theorem C9_fail_total (a : Assignment) (reason : String) (now : ℚ) :
    (a.fail reason now).status = AssignmentStatus.FAILED ∧
    (a.fail reason now).completed_at = some now :=
  ⟨rfl, rfl⟩

/-! ## Orchestrator: `src/application/orchestrator.py`

The orchestrator's collaborators are modelled explicitly:
* the Redis wrappers in `redis_client.py` catch their own exceptions and
  never raise, so each call site carries a `Bool` from the environment
  saying whether the underlying store operation took effect;
* `create_assignment_lock` returns a `Bool` (false both on a held lock and
  on a store error), as in the source;
* the repository's `find_available` result and the sampler's
  `generate_duration` outcome are supplied by the environment; the sampler
  is not wrapped in the source, so its behaviour is an `Except` that may
  propagate to the orchestrator's outer handler;
* webhook notifications never raise (they catch internally and return a
  `Bool`), modelled by appending an event when delivery succeeds.

State errors carry the state reached when the exception was raised. -/

inductive OrchEvent
  | saturated (call_id : String) (t_ms : ℚ)
  | assigned (call_id : String) (agent_id : String)
deriving DecidableEq

structure OrchState where
  agents : List Agent := []
  redisCalls : List (String × Call) := []
  redisAgents : List (String × Agent) := []
  activeAssignments : List (String × Assignment) := []
  callTimers : List String := []
  pendingCalls : List String := []
  metrics : String → ℚ := fun _ => 0
  events : List OrchEvent := []

/-- Redis hash overwrite semantics for an association list. -/
def upsert {α : Type} (k : String) (v : α) (l : List (String × α)) : List (String × α) :=
  (k, v) :: l.filter (fun p => p.fst ≠ k)

def RedisClient.set_call_status (ok : Bool) (s : OrchState) (c : Call) : OrchState :=
  if ok then { s with redisCalls := upsert c.id c s.redisCalls } else s

def RedisClient.set_agent_status (ok : Bool) (s : OrchState) (a : Agent) : OrchState :=
  if ok then { s with redisAgents := upsert a.id a s.redisAgents } else s

def RedisClient.get_call_status (ok : Bool) (s : OrchState) (call_id : String) : Option Call :=
  if ok then s.redisCalls.lookup call_id else none

def RedisClient.increment_metric (ok : Bool) (s : OrchState) (name : String) (v : ℚ) :
    OrchState :=
  if ok then
    { s with metrics := fun k => if k = name then s.metrics k + v else s.metrics k }
  else s

def RedisClient.set_metric (ok : Bool) (s : OrchState) (name : String) (v : ℚ) : OrchState :=
  if ok then { s with metrics := fun k => if k = name then v else s.metrics k } else s

def RedisClient.remove_pending_call (ok : Bool) (s : OrchState) (call_id : String) :
    OrchState :=
  if ok then { s with pendingCalls := s.pendingCalls.filter (fun c => c ≠ call_id) } else s

/-- `AgentRepository.find_by_id`: Redis cache first, then the durable
store (the cache write-back on a durable-store hit is not modelled). -/
def AgentRepository.find_by_id (s : OrchState) (agent_id : String) : Option Agent :=
  match s.redisAgents.lookup agent_id with
  | some a => some a
  | none => s.agents.find? (fun a => a.id = agent_id)

structure Env where
  interfere : Agent → Agent := id
  asgId : String := ""
  findAvailable : List Agent := []
  lockAcquired : Bool := true
  setCall1 : Bool := true
  satSetCall : Bool := true
  satNotify : Bool := true
  satMetric : Bool := true
  durationRes : Except Err ℚ := .ok 0
  setCall2 : Bool := true
  setAgent2 : Bool := true
  removePending : Bool := true
  notifyAssign : Bool := true
  metricAssigned : Bool := true
  metricLastTime : Bool := true
  metricErrors : Bool := true
  tRace : ℚ := 0
  tSat : ℚ := 0
  tAssign : ℚ := 0
  tErr : ℚ := 0

structure AssignmentResult where
  success : Bool
  assignment : Option Assignment := none
  agent : Option Agent := none
  message : String := ""
  assignment_time_ms : ℚ := 0
deriving DecidableEq

/-- `CallOrchestrator._handle_saturation`. -/
def CallOrchestrator.handle_saturation (env : Env) (s : OrchState) (call : Call)
    (assignment_time_ms : ℚ) : OrchState :=
  let call' := { call with status := CallStatus.FAILED }
  let s1 := RedisClient.set_call_status env.satSetCall s call'
  let s2 := if env.satNotify then
      { s1 with events := s1.events ++ [OrchEvent.saturated call.id assignment_time_ms] }
    else s1
  RedisClient.increment_metric env.satMetric s2 "calls_saturated" 1

/-- `CallOrchestrator._schedule_call_completion`: arms the one-shot timer. -/
def CallOrchestrator.schedule_call_completion (s : OrchState) (call_id : String) : OrchState :=
  { s with callTimers := s.callTimers ++ [call_id] }

/-- `CallOrchestrator._notify_assignment`: catches webhook failures
internally, so it never raises. -/
def CallOrchestrator.notify_assignment (ok : Bool) (s : OrchState)
    (call_id agent_id : String) : OrchState :=
  if ok then { s with events := s.events ++ [OrchEvent.assigned call_id agent_id] } else s

/-- The body of `CallOrchestrator.assign_call` inside the outer
`try`: an `.error` is an exception that would reach the outer handler,
carrying the state at the raise point. -/
def CallOrchestrator.assign_call_body (env : Env) (s : OrchState) (call : Call) (now : ℚ) :
    Except (Err × OrchState) (AssignmentResult × OrchState) :=
  let s1 := RedisClient.set_call_status env.setCall1 s call
  if env.lockAcquired = false then
    .ok ({ success := false,
           message := "Race condition detected - call is being processed",
           assignment_time_ms := env.tRace }, s1)
  else
    if env.findAvailable = [] then
      let s2 := CallOrchestrator.handle_saturation env s1 call env.tSat
      .ok ({ success := false,
             message := "No agents available - system saturated",
             assignment_time_ms := env.tSat }, s2)
    else
      match AssignmentService.assignCall call env.findAvailable env.interfere env.asgId
          now env.tAssign with
      | (none, _) =>
        .ok ({ success := false,
               message := "Assignment failed - agent selection error",
               assignment_time_ms := env.tAssign }, s1)
      | (some (assignment, agent'), call') =>
        match env.durationRes with
        | .error e => .error (e, s1)
        | .ok expected_duration =>
          let asg' := { assignment with expected_duration_seconds := some expected_duration }
          let s3 := { s1 with activeAssignments := upsert call.id asg' s1.activeAssignments }
          let s4 := RedisClient.set_call_status env.setCall2 s3 call'
          let s5 := RedisClient.set_agent_status env.setAgent2 s4 agent'
          let s6 := RedisClient.remove_pending_call env.removePending s5 call.id
          let s7 := CallOrchestrator.schedule_call_completion s6 call.id
          let s8 := CallOrchestrator.notify_assignment env.notifyAssign s7 call.id agent'.id
          let s9 := RedisClient.increment_metric env.metricAssigned s8 "calls_assigned" 1
          let s10 := RedisClient.set_metric env.metricLastTime s9 "last_assignment_time_ms"
            env.tAssign
          .ok ({ success := true, assignment := some asg', agent := some agent',
                 message := "Assignment successful",
                 assignment_time_ms := env.tAssign }, s10)

/-- `CallOrchestrator.assign_call` with its outer `except Exception`
handler: every exception from the body is collapsed into a failure
`AssignmentResult` after bumping `assignment_errors`. -/
def CallOrchestrator.assign_call (env : Env) (s : OrchState) (call : Call) (now : ℚ) :
    Except (Err × OrchState) (AssignmentResult × OrchState) :=
  match CallOrchestrator.assign_call_body env s call now with
  | .ok rs => .ok rs
  | .error (e, se) =>
    .ok ({ success := false,
           message := "Assignment error: " ++ e,
           assignment_time_ms := env.tErr },
         RedisClient.increment_metric env.metricErrors se "assignment_errors" 1)

structure CancelEnv where
  getCall : Bool := true
  setCall : Bool := true
  setAgent : Bool := true
  abandonMetric : Bool := true

/-- `CallOrchestrator.cancel_call`.  A raised exception (only possible from
`Agent.complete_call` on a non-BUSY agent) is caught by the surrounding
handler, which returns `false`; the mutations already applied persist. -/
def CallOrchestrator.cancel_call (env : CancelEnv) (s : OrchState) (call_id : String)
    (now : ℚ) : Bool × OrchState :=
  let s1 := if call_id ∈ s.callTimers then
      { s with callTimers := s.callTimers.filter (fun c => c ≠ call_id) }
    else s
  let s2 :=
    match RedisClient.get_call_status env.getCall s1 call_id with
    | none => s1
    | some data =>
      let call : Call := { id := data.id, phone_number := data.phone_number,
                           call_type := data.call_type, status := data.status,
                           created_at := now }
      let call' := call.abandon_call now
      RedisClient.set_call_status env.setCall s1 call'
  match s2.activeAssignments.lookup call_id with
  | none =>
    (true, RedisClient.increment_metric env.abandonMetric s2 "calls_abandoned" 1)
  | some assignment =>
    match AgentRepository.find_by_id s2 assignment.agent_id with
    | none =>
      let s3 := { s2 with
        activeAssignments := s2.activeAssignments.filter (fun p => p.fst ≠ call_id) }
      (true, RedisClient.increment_metric env.abandonMetric s3 "calls_abandoned" 1)
    | some agent =>
      match agent.complete_call now with
      | .error _ => (false, s2)
      | .ok agent' =>
        let s3 := RedisClient.set_agent_status env.setAgent s2 agent'
        let s4 := { s3 with
          activeAssignments := s3.activeAssignments.filter (fun p => p.fst ≠ call_id) }
        (true, RedisClient.increment_metric env.abandonMetric s4 "calls_abandoned" 1)

theorem lookup_upsert {α : Type} (k : String) (v : α) (l : List (String × α)) :
    (upsert k v l).lookup k = some v := by
  simp [upsert, List.lookup]

theorem set_call_status_frame (ok : Bool) (s : OrchState) (c : Call) :
    (RedisClient.set_call_status ok s c).events = s.events ∧
    (RedisClient.set_call_status ok s c).metrics = s.metrics ∧
    (RedisClient.set_call_status ok s c).redisAgents = s.redisAgents ∧
    (RedisClient.set_call_status ok s c).agents = s.agents ∧
    (RedisClient.set_call_status ok s c).callTimers = s.callTimers ∧
    (RedisClient.set_call_status ok s c).activeAssignments = s.activeAssignments := by
  unfold RedisClient.set_call_status
  cases ok <;> exact ⟨rfl, rfl, rfl, rfl, rfl, rfl⟩

theorem increment_metric_frame (ok : Bool) (s : OrchState) (n : String) (v : ℚ) :
    (RedisClient.increment_metric ok s n v).events = s.events ∧
    (RedisClient.increment_metric ok s n v).redisCalls = s.redisCalls ∧
    (RedisClient.increment_metric ok s n v).redisAgents = s.redisAgents ∧
    (RedisClient.increment_metric ok s n v).agents = s.agents ∧
    (RedisClient.increment_metric ok s n v).callTimers = s.callTimers ∧
    (RedisClient.increment_metric ok s n v).activeAssignments = s.activeAssignments := by
  unfold RedisClient.increment_metric
  cases ok <;> exact ⟨rfl, rfl, rfl, rfl, rfl, rfl⟩

theorem increment_metric_true_apply (s : OrchState) (n : String) (v : ℚ) :
    (RedisClient.increment_metric true s n v).metrics n = s.metrics n + v := by
  simp [RedisClient.increment_metric]

/-- C5: on saturation (empty available-agent query) with the lock held and
the store/notifier succeeding, the dispatcher returns the failure result
with the measured latency, the call is recorded as FAILED, a saturation
event is emitted, `calls_saturated` is incremented, and no agent entity,
timer or active assignment is touched. -/
theorem C5_saturation (env : Env) (s : OrchState) (call : Call) (now : ℚ)
    (hLock : env.lockAcquired = true)
    (hAvail : env.findAvailable = [])
    (hSatSet : env.satSetCall = true)
    (hNotify : env.satNotify = true)
    (hMetric : env.satMetric = true) :
    ∃ s', CallOrchestrator.assign_call env s call now =
        .ok ({ success := false,
               message := "No agents available - system saturated",
               assignment_time_ms := env.tSat }, s') ∧
      s'.redisCalls.lookup call.id = some { call with status := CallStatus.FAILED } ∧
      OrchEvent.saturated call.id env.tSat ∈ s'.events ∧
      s'.metrics "calls_saturated" = s.metrics "calls_saturated" + 1 ∧
      s'.redisAgents = s.redisAgents ∧
      s'.agents = s.agents ∧
      s'.callTimers = s.callTimers ∧
      s'.activeAssignments = s.activeAssignments := by
  have hbody : CallOrchestrator.assign_call_body env s call now =
      .ok ({ success := false,
             message := "No agents available - system saturated",
             assignment_time_ms := env.tSat },
           CallOrchestrator.handle_saturation env
             (RedisClient.set_call_status env.setCall1 s call) call env.tSat) := by
    unfold CallOrchestrator.assign_call_body
    rw [hLock, hAvail]
    simp
  set s1 := RedisClient.set_call_status env.setCall1 s call with hs1
  obtain ⟨h1e, h1m, h1ra, h1ag, h1t, h1aa⟩ := set_call_status_frame env.setCall1 s call
  set s2 := RedisClient.set_call_status env.satSetCall s1
    { call with status := CallStatus.FAILED } with hs2
  obtain ⟨h2e, h2m, h2ra, h2ag, h2t, h2aa⟩ := set_call_status_frame env.satSetCall s1
    { call with status := CallStatus.FAILED }
  set s3 := { s2 with
    events := s2.events ++ [OrchEvent.saturated call.id env.tSat] } with hs3
  have hsat : CallOrchestrator.handle_saturation env s1 call env.tSat =
      RedisClient.increment_metric env.satMetric s3 "calls_saturated" 1 := by
    rw [CallOrchestrator.handle_saturation, hNotify]
    simp
  obtain ⟨h4e, h4rc, h4ra, h4ag, h4t, h4aa⟩ :=
    increment_metric_frame env.satMetric s3 "calls_saturated" 1
  refine ⟨CallOrchestrator.handle_saturation env s1 call env.tSat,
    ?_, ?_, ?_, ?_, ?_, ?_, ?_, ?_⟩
  · unfold CallOrchestrator.assign_call
    rw [hbody]
  · rw [hsat, h4rc]
    show s2.redisCalls.lookup call.id = _
    rw [hs2, RedisClient.set_call_status, hSatSet]
    simp only [if_pos]
    exact lookup_upsert _ _ _
  · rw [hsat, h4e, hs3]
    simp
  · rw [hsat, hMetric, increment_metric_true_apply]
    show s2.metrics "calls_saturated" + 1 = _
    rw [h2m, h1m]
  · rw [hsat, h4ra]
    show s2.redisAgents = _
    rw [h2ra, h1ra]
  · rw [hsat, h4ag]
    show s2.agents = _
    rw [h2ag, h1ag]
  · rw [hsat, h4t]
    show s2.callTimers = _
    rw [h2t, h1t]
  · rw [hsat, h4aa]
    show s2.activeAssignments = _
    rw [h2aa, h1aa]

/-- Witness for C5 at a concrete input (default environment, empty agent
pool, fresh state). -/
theorem C5_witness :
    ∃ s', CallOrchestrator.assign_call { tSat := 4 } {} { id := "c1" } 0 =
        .ok ({ success := false,
               message := "No agents available - system saturated",
               assignment_time_ms := Env.tSat { tSat := 4 } }, s') ∧
      s'.redisCalls.lookup (Call.id { id := "c1" })
        = some { Call.mk "c1" "" "" CallStatus.PENDING none QualificationResult.PENDING
            0 none none none none with status := CallStatus.FAILED } ∧
      OrchEvent.saturated (Call.id { id := "c1" }) (Env.tSat { tSat := 4 }) ∈ s'.events ∧
      s'.metrics "calls_saturated"
        = OrchState.metrics {} "calls_saturated" + 1 ∧
      s'.redisAgents = OrchState.redisAgents {} ∧
      s'.agents = OrchState.agents {} ∧
      s'.callTimers = OrchState.callTimers {} ∧
      s'.activeAssignments = OrchState.activeAssignments {} :=
  C5_saturation { tSat := 4 } {} { id := "c1" } 0 rfl rfl rfl rfl rfl

/-- C7: the dispatcher never raises past its boundary — for every behaviour
of its collaborators (lock outcome, repository agent list, sampler, store
and notifier effects) `assign_call` resolves to an `AssignmentResult`, and
every exception escaping the body is collapsed into a failure result after
bumping `assignment_errors`. -/
theorem C7_never_raises (env : Env) (s : OrchState) (call : Call) (now : ℚ) :
    (∃ r s', CallOrchestrator.assign_call env s call now = .ok (r, s')) ∧
    (∀ e se, CallOrchestrator.assign_call_body env s call now = .error (e, se) →
      CallOrchestrator.assign_call env s call now =
        .ok ({ success := false,
               message := "Assignment error: " ++ e,
               assignment_time_ms := env.tErr },
             RedisClient.increment_metric env.metricErrors se "assignment_errors" 1)) := by
  constructor
  · cases h : CallOrchestrator.assign_call_body env s call now with
    | ok rs =>
      exact ⟨rs.1, rs.2, by unfold CallOrchestrator.assign_call; rw [h]⟩
    | error es =>
      exact ⟨_, _, by unfold CallOrchestrator.assign_call; rw [h]⟩
  · intro e se h
    unfold CallOrchestrator.assign_call
    rw [h]

/-- Witness for C7 at a concrete input whose sampler raises: the error is
collapsed into a failure result. -/
theorem C7_witness :
    (∃ r s', CallOrchestrator.assign_call
      { findAvailable := [{ id := "a1", status := AgentStatus.AVAILABLE }],
        durationRes := .error "boom" } {} { id := "c1" } 0 = .ok (r, s')) ∧
    (∀ e se, CallOrchestrator.assign_call_body
        { findAvailable := [{ id := "a1", status := AgentStatus.AVAILABLE }],
          durationRes := .error "boom" } {} { id := "c1" } 0 = .error (e, se) →
      CallOrchestrator.assign_call
        { findAvailable := [{ id := "a1", status := AgentStatus.AVAILABLE }],
          durationRes := .error "boom" } {} { id := "c1" } 0 =
        .ok ({ success := false,
               message := "Assignment error: " ++ e,
               assignment_time_ms := Env.tErr
                 { findAvailable := [{ id := "a1", status := AgentStatus.AVAILABLE }],
                   durationRes := .error "boom" } },
             RedisClient.increment_metric
               (Env.metricErrors
                 { findAvailable := [{ id := "a1", status := AgentStatus.AVAILABLE }],
                   durationRes := .error "boom" }) se "assignment_errors" 1)) :=
  C7_never_raises
    { findAvailable := [{ id := "a1", status := AgentStatus.AVAILABLE }],
      durationRes := .error "boom" } {} { id := "c1" } 0

theorem set_call_status_true_redisCalls (s : OrchState) (c : Call) :
    (RedisClient.set_call_status true s c).redisCalls = upsert c.id c s.redisCalls := by
  simp [RedisClient.set_call_status]

/-- The concrete state for the C6 counterexample: the completion timer for
call `c1` has already fired — the call is cached as COMPLETED, its timer
entry and active assignment are gone. -/
def cancelAfterFireState : OrchState :=
  { redisCalls :=
      [("c1", { id := "c1", phone_number := "p", call_type := "t",
                status := CallStatus.COMPLETED,
                qualification_result := QualificationResult.OK,
                completed_at := some 50, duration_seconds := some 10 })] }

/-- Counterexample to C6 as stated: cancelling after the timer has fired is
not a no-op — the cached COMPLETED call record is overwritten to ABANDONED
and `calls_abandoned` is incremented. -/
theorem C6_counterexample :
    (CallOrchestrator.cancel_call {} cancelAfterFireState "c1" 99).1 = true ∧
    ((CallOrchestrator.cancel_call {} cancelAfterFireState "c1" 99).2.redisCalls.lookup
        "c1").map Call.status = some CallStatus.ABANDONED ∧
    (CallOrchestrator.cancel_call {} cancelAfterFireState "c1" 99).2.metrics
      "calls_abandoned" = 1 := by
  refine ⟨?_, ?_, ?_⟩
  · decide
  · decide
  · simp only [CallOrchestrator.cancel_call, cancelAfterFireState,
      RedisClient.get_call_status, RedisClient.set_call_status,
      RedisClient.increment_metric, Call.abandon_call, upsert,
      AgentRepository.find_by_id, List.lookup]
    norm_num

/-- C6 (amended): for a call whose completion timer has already fired (the
call is cached as COMPLETED, its timer entry and active assignment have been
discarded), a subsequent cancel request still returns True, rebuilds the
call record from the cache and overwrites it to ABANDONED with
`completed_at = now`, and increments `calls_abandoned`; agent state is left
unchanged. -/
theorem C6_cancel_after_fire (env : CancelEnv) (s : OrchState) (cid : String) (now : ℚ)
    (c : Call)
    (hget : env.getCall = true)
    (hsetc : env.setCall = true)
    (hmet : env.abandonMetric = true)
    (htimer : cid ∉ s.callTimers)
    (hcache : s.redisCalls.lookup cid = some c)
    (hid : c.id = cid)
    (hcomp : c.status = CallStatus.COMPLETED)
    (hnoasg : s.activeAssignments.lookup cid = none) :
    ∃ s', CallOrchestrator.cancel_call env s cid now = (true, s') ∧
      s'.redisCalls.lookup cid = some
        { id := c.id, phone_number := c.phone_number, call_type := c.call_type,
          status := CallStatus.ABANDONED, created_at := now,
          completed_at := some now } ∧
      s'.metrics "calls_abandoned" = s.metrics "calls_abandoned" + 1 ∧
      s'.redisAgents = s.redisAgents ∧
      s'.agents = s.agents ∧
      s'.callTimers = s.callTimers := by
  obtain ⟨h2e, h2m, h2ra, h2ag, h2t, h2aa⟩ :=
    set_call_status_frame env.setCall s
      { id := c.id, phone_number := c.phone_number, call_type := c.call_type,
        status := CallStatus.ABANDONED, created_at := now, completed_at := some now }
  obtain ⟨h5e, h5rc, h5ra, h5ag, h5t, h5aa⟩ :=
    increment_metric_frame env.abandonMetric
      (RedisClient.set_call_status env.setCall s
        { id := c.id, phone_number := c.phone_number, call_type := c.call_type,
          status := CallStatus.ABANDONED, created_at := now, completed_at := some now })
      "calls_abandoned" 1
  refine ⟨RedisClient.increment_metric env.abandonMetric
      (RedisClient.set_call_status env.setCall s
        { id := c.id, phone_number := c.phone_number, call_type := c.call_type,
          status := CallStatus.ABANDONED, created_at := now, completed_at := some now })
      "calls_abandoned" 1, ?_, ?_, ?_, ?_, ?_, ?_⟩
  · unfold CallOrchestrator.cancel_call
    simp only [if_neg htimer, RedisClient.get_call_status, hget, if_true, hcache,
      Call.abandon_call, h2aa, hnoasg]
  · rw [h5rc, hsetc, set_call_status_true_redisCalls, ← hid]
    exact lookup_upsert c.id _ s.redisCalls
  · rw [hmet, increment_metric_true_apply, h2m]
  · rw [h5ra, h2ra]
  · rw [h5ag, h2ag]
  · rw [h5t, h2t]

/-- Witness for the amended C6 theorem at the concrete post-fire state. -/
theorem C6_witness :
    ∃ s', CallOrchestrator.cancel_call {} cancelAfterFireState "c1" 99 = (true, s') ∧
      s'.redisCalls.lookup "c1" = some
        { id := "c1", phone_number := "p", call_type := "t",
          status := CallStatus.ABANDONED, created_at := 99,
          completed_at := some 99 } ∧
      s'.metrics "calls_abandoned"
        = cancelAfterFireState.metrics "calls_abandoned" + 1 ∧
      s'.redisAgents = cancelAfterFireState.redisAgents ∧
      s'.agents = cancelAfterFireState.agents ∧
      s'.callTimers = cancelAfterFireState.callTimers :=
  C6_cancel_after_fire {} cancelAfterFireState "c1" 99
    { id := "c1", phone_number := "p", call_type := "t",
      status := CallStatus.COMPLETED,
      qualification_result := QualificationResult.OK,
      completed_at := some 50, duration_seconds := some 10 }
    rfl rfl rfl (by decide) (by decide) rfl rfl (by decide)

/-- C10: for a call id with no scheduled timer, no cached call record, and
no active assignment, `cancel_call` still returns True and increments
`calls_abandoned`, leaving everything else unchanged. -/
theorem C10_cancel_unknown_id (env : CancelEnv) (s : OrchState) (cid : String) (now : ℚ)
    (hmet : env.abandonMetric = true)
    (htimer : cid ∉ s.callTimers)
    (hnocache : s.redisCalls.lookup cid = none)
    (hnoasg : s.activeAssignments.lookup cid = none) :
    ∃ s', CallOrchestrator.cancel_call env s cid now = (true, s') ∧
      s'.metrics "calls_abandoned" = s.metrics "calls_abandoned" + 1 ∧
      s'.redisCalls = s.redisCalls ∧
      s'.redisAgents = s.redisAgents ∧
      s'.agents = s.agents ∧
      s'.callTimers = s.callTimers ∧
      s'.activeAssignments = s.activeAssignments := by
  have hget : RedisClient.get_call_status env.getCall s cid = none := by
    rw [RedisClient.get_call_status]
    cases env.getCall with
    | false => simp
    | true => simpa using hnocache
  obtain ⟨h5e, h5rc, h5ra, h5ag, h5t, h5aa⟩ :=
    increment_metric_frame env.abandonMetric s "calls_abandoned" 1
  refine ⟨RedisClient.increment_metric env.abandonMetric s "calls_abandoned" 1,
    ?_, ?_, h5rc, h5ra, h5ag, h5t, h5aa⟩
  · unfold CallOrchestrator.cancel_call
    simp only [if_neg htimer, hget, hnoasg]
  · rw [hmet, increment_metric_true_apply]

/-- Witness for C10 at a concrete input: an id never dispatched against a
fresh state. -/
theorem C10_witness :
    ∃ s', CallOrchestrator.cancel_call {} {} "ghost" 3 = (true, s') ∧
      s'.metrics "calls_abandoned" = OrchState.metrics {} "calls_abandoned" + 1 ∧
      s'.redisCalls = OrchState.redisCalls {} ∧
      s'.redisAgents = OrchState.redisAgents {} ∧
      s'.agents = OrchState.agents {} ∧
      s'.callTimers = OrchState.callTimers {} ∧
      s'.activeAssignments = OrchState.activeAssignments {} :=
  C10_cancel_unknown_id {} {} "ghost" 3 rfl (by decide) rfl rfl
